import Mathlib

/-!
Verification of the SSRF / DNS-rebinding guard of the hardened-nextjs
repository.

The module under study exposes a single async function `safeFetch(raw)`
(src/unnamed/part_002).  Its behaviour, phase by phase:

1. `new URL(raw)` parses the input; a parse failure rejects the call
   (invalid-url).
2. The scheme gate: `if (url.protocol !== 'https:') throw` (disallowed-scheme),
   before any DNS or socket activity.
3. `dns.resolve4(url.hostname)` resolves the A records; a lookup failure
   (including the ENODATA rejection Node issues when the answer set is empty)
   rejects the call (resolution-error).
4. `if (ips.some(ip => PRIVATE.test(ip))) throw` (private-address-first-pass):
   the whole answer list is scanned against the PRIVATE regex.
5. A raw socket handshake to `ips[0]` on port 443, raced against a 3000 ms
   timer.  Timer first: destroy the socket, reject (handshake-timeout).
   Error event first: destroy the socket, reject (handshake-error).
   Connect callback first: read `socket.remoteAddress`, and if the PRIVATE
   regex matches it destroy the socket and reject
   (private-address-post-handshake), otherwise end the socket cleanly.
6. `return fetch(raw)`: the platform fetch is issued against the original raw
   URL string; its rejection is the fetch-error kind.

The embedding below is a deterministic function of the input string together
with an environment oracle recording what the platform delivered on this run:
the parse result, the DNS answer, the outcome of the socket connect race, and
whether the final fetch succeeded.  Alongside its result the function returns
the ordered trace of externally visible events (lookups, connect attempts,
socket teardown, fetch calls), on which the trace-shaped claims are stated.
-/

set_option maxRecDepth 10000

/-- One resolved IPv4 address as four decimal octets.  Node's `dns.resolve4`
and `socket.remoteAddress` deliver such addresses as canonical dotted-quad
strings (see `renderIp`). -/
structure Ip where
  a : Nat
  b : Nat
  c : Nat
  d : Nat
deriving DecidableEq, Repr

/-- A dotted quad is valid when every octet is below 256. -/
def Ip.valid (ip : Ip) : Prop :=
  ip.a < 256 ∧ ip.b < 256 ∧ ip.c < 256 ∧ ip.d < 256

instance (ip : Ip) : Decidable ip.valid := by
  unfold Ip.valid; infer_instance

/-- Canonical dotted-quad rendering of an address, the string form in which the
platform resolver and `socket.remoteAddress` report IPv4 addresses. -/
def renderIp (ip : Ip) : String :=
  Nat.repr ip.a ++ (".") ++ Nat.repr ip.b ++ (".") ++ Nat.repr ip.c ++ (".") ++ Nat.repr ip.d

/-- Anchored prefix test: does the pattern `p` occur at the start of `s`?
This is the meaning of a regex of the form `/^lit/` applied via `.test`. -/
def strStarts (p s : String) : Bool :=
  List.isPrefixOf p.data s.data

/-- The sixteen two-digit strings generated by the `(1[6-9]|2[0-9]|3[0-1])`
group of the PRIVATE regex. -/
def oct172 : List String :=
  [("16"), ("17"), ("18"), ("19"),
   ("20"), ("21"), ("22"), ("23"), ("24"), ("25"), ("26"), ("27"), ("28"), ("29"),
   ("30"), ("31")]

/-- Translation of the source constant
`const PRIVATE = /^(10\.|172\.(1[6-9]|2[0-9]|3[0-1])\.|192\.168\.|127\.|169\.254\.)/`
(src/unnamed/part_002 line 36): an anchored alternation of literal prefixes,
`PRIVATE.test s` succeeding iff one of the alternatives starts `s`. -/
def PRIVATE (s : String) : Bool :=
  strStarts ("10.") s
    || oct172.any (fun d => strStarts (("172.") ++ d ++ (".")) s)
    || strStarts ("192.168.") s
    || strStarts ("127.") s
    || strStarts ("169.254.") s

/-- The eight failure kinds of the guard, one per rejection site of
`safeFetch` (the taxonomy of spec section 7). -/
inductive ErrKind
  | invalidUrl
  | disallowedScheme
  | resolutionError
  | privateFirstPass
  | handshakeTimeout
  | handshakeError
  | privatePostHandshake
  | fetchError
deriving DecidableEq, Repr

/-- The fields of the parsed URL that `safeFetch` and the final fetch consult:
`url.protocol` (with trailing colon, as in the WHATWG URL API), `url.hostname`,
and the explicit port when the URL carries one (`none` = default port). -/
structure ParsedUrl where
  protocol : String
  hostname : String
  port : Option Nat
deriving DecidableEq, Repr

/-- Outcome of the raw socket connect as delivered by the transport: the
connect callback fires after `elapsed` ms reporting `socket.remoteAddress`,
or the error event fires after `elapsed` ms, or neither ever fires. -/
inductive ConnectEvent
  | success (elapsed : Nat) (remote : String)
  | failure (elapsed : Nat)
  | never
deriving DecidableEq, Repr

/-- Externally visible events of one `safeFetch` run, in order: a DNS lookup
of a hostname, a socket connect attempt to a port and address, socket
teardown (`socket.destroy()`), clean close (`socket.end()`), and a call of the
platform fetch with a URL string and the address pinned for it, if any. -/
inductive Event
  | dnsLookup (host : String)
  | connectAttempt (port : Nat) (addr : String)
  | socketDestroy
  | socketEnd
  | fetchCall (url : String) (pinnedAddr : Option String)
deriving DecidableEq, Repr

/-- What the platform delivers on one run: the result of `new URL(raw)`
(`none` = parse failure), the result of the `dns.resolve4` lookup (`none` =
lookup failure, otherwise the ordered answer list), the outcome of the socket
connect, and whether the final fetch resolves. -/
structure Env where
  parsed : Option ParsedUrl
  dnsAnswer : Option (List String)
  connectEvent : ConnectEvent
  fetchOk : Bool
deriving DecidableEq, Repr

/-- The value a successful run returns: the platform fetch's response,
carrying the URL string the request was issued for. -/
structure Response where
  requestUrl : String
deriving DecidableEq, Repr

/-- The handshake time budget: `setTimeout(..., 3000)` in the source. -/
def timeoutMs : Nat := 3000

/-- The socket-handshake phase of `safeFetch` (the Promise executor,
src/unnamed/part_002 lines 75-102), given the transport's outcome for this
connect attempt.  The 3000 ms timer races the socket events: if neither the
connect callback nor the error event has fired when the timer expires, the
timer destroys the socket and rejects with the timeout error.  An error event
inside the budget clears the timer, destroys the socket and rejects with the
transport error.  A connect callback inside the budget clears the timer and
tests `socket.remoteAddress` against PRIVATE: a match destroys the socket and
rejects; otherwise the socket is ended cleanly and the promise resolves. -/
def connectPhase (ev : ConnectEvent) : Except ErrKind Unit × List Event :=
  match ev with
  | ConnectEvent.success t remote =>
      if t < timeoutMs then
        if PRIVATE remote then
          (Except.error ErrKind.privatePostHandshake, [Event.socketDestroy])
        else
          (Except.ok (), [Event.socketEnd])
      else
        (Except.error ErrKind.handshakeTimeout, [Event.socketDestroy])
  | ConnectEvent.failure t =>
      if t < timeoutMs then
        (Except.error ErrKind.handshakeError, [Event.socketDestroy])
      else
        (Except.error ErrKind.handshakeTimeout, [Event.socketDestroy])
  | ConnectEvent.never =>
      (Except.error ErrKind.handshakeTimeout, [Event.socketDestroy])

/-- Model of the platform fetch primitive as `safeFetch` invokes it
(`return fetch(raw)`, src/unnamed/part_002 line 108): it receives the URL
string, with no pinned address, re-parses it (URL parsing is deterministic, so
the hostname is the one parsed earlier) and performs its own DNS resolution of
that hostname before connecting.  A rejection is the fetch-error kind. -/
def fetchPrim (raw : String) (host : String) (ok : Bool) :
    Except ErrKind Response × List Event :=
  if ok then
    (Except.ok (Response.mk raw), [Event.fetchCall raw none, Event.dnsLookup host])
  else
    (Except.error ErrKind.fetchError, [Event.fetchCall raw none, Event.dnsLookup host])

/-- Model of the destination port the platform fetch uses for a parsed https
URL: the URL's explicit port when present, else the scheme default 443. -/
def fetchEffectivePort (u : ParsedUrl) : Nat :=
  match u.port with
  | some p => p
  | none => 443

/-- Shallow embedding of `safeFetch` (src/unnamed/part_002 lines 51-109).

* `new URL(raw)` throwing is the `env.parsed = none` branch (invalid-url).
* The scheme gate compares `url.protocol` with the literal with trailing
  colon, exactly as the source does, before any lookup or socket event.
* `dns.resolve4` rejects both when the lookup fails and (with ENODATA, per
  Node's documented contract) when the answer set is empty, so both the
  `none` and the `some []` branches reject with resolution-error; the code
  itself never observes an empty array, hence `ips[0]` below is only reached
  on a non-empty list.
* `ips.some(ip => PRIVATE.test(ip))` is the scan of the whole answer list.
* The connect attempt targets `ips[0]` on the literal port 443; its race
  against the 3000 ms timer is `connectPhase`.
* Only when the handshake phase resolves is `fetch(raw)` issued, against the
  original raw string. -/
def safeFetch (raw : String) (env : Env) : Except ErrKind Response × List Event :=
  match env.parsed with
  | none =>
      (Except.error ErrKind.invalidUrl, [])
  | some url =>
      if url.protocol ≠ ("https:") then
        (Except.error ErrKind.disallowedScheme, [])
      else
        match env.dnsAnswer with
        | none =>
            (Except.error ErrKind.resolutionError, [Event.dnsLookup url.hostname])
        | some [] =>
            (Except.error ErrKind.resolutionError, [Event.dnsLookup url.hostname])
        | some (ip0 :: rest) =>
            if (ip0 :: rest).any (fun ip => PRIVATE ip) then
              (Except.error ErrKind.privateFirstPass, [Event.dnsLookup url.hostname])
            else
              match connectPhase env.connectEvent with
              | (Except.error e, hsEv) =>
                  (Except.error e,
                    Event.dnsLookup url.hostname :: Event.connectAttempt 443 ip0 :: hsEv)
              | (Except.ok _, hsEv) =>
                  match fetchPrim raw url.hostname env.fetchOk with
                  | (fr, fEv) =>
                      (fr,
                        Event.dnsLookup url.hostname :: Event.connectAttempt 443 ip0
                          :: (hsEv ++ fEv))

/-- Recognizer for DNS-lookup events, used to count the resolutions one run
performs. -/
def isDnsLookup (ev : Event) : Bool :=
  match ev with
  | Event.dnsLookup _ => true
  | _ => false

/-- The five address blocks named by the spec — 10.0.0.0/8, 172.16.0.0/12,
192.168.0.0/16, 127.0.0.0/8, 169.254.0.0/16 — octet-wise: a /8 block fixes
the first octet, a /16 block the first two, and 172.16.0.0/12 fixes the first
octet and confines the second to 16..31. -/
def inClaimedRanges (ip : Ip) : Prop :=
  ip.a = 10 ∨ (ip.a = 172 ∧ 16 ≤ ip.b ∧ ip.b ≤ 31) ∨ (ip.a = 192 ∧ ip.b = 168)
    ∨ ip.a = 127 ∨ (ip.a = 169 ∧ ip.b = 254)

instance (ip : Ip) : Decidable (inClaimedRanges ip) := by
  unfold inClaimedRanges; infer_instance

example : PRIVATE ("10.0.0.1") = true := by decide
example : PRIVATE ("172.16.5.5") = true := by decide
example : PRIVATE ("172.32.0.1") = false := by decide
example : PRIVATE ("192.168.1.1") = true := by decide
example : PRIVATE ("127.0.0.1") = true := by decide
example : PRIVATE ("169.254.169.254") = true := by decide
example : PRIVATE ("93.184.216.34") = false := by decide
example : renderIp (Ip.mk 93 184 216 34) = ("93.184.216.34") := by decide

/-- The character list behind the one-character separator string. -/
lemma dot_data : (".").data = [('.')] := rfl

/-- No octet, rendered in decimal, contains the field separator. -/
lemma dot_not_in_repr255 : ∀ x : Fin 256, ('.') ∉ (Nat.repr x.val).data := by decide

/-- No alternative of the second-octet group contains the field separator. -/
lemma dot_notin_oct172 : ∀ d ∈ oct172, ('.') ∉ d.data := by decide

lemma repr256_eq_ten : ∀ x : Fin 256, ((Nat.repr x.val).data = ("10").data ↔ x.val = 10) := by
  decide

lemma repr256_eq_127 : ∀ x : Fin 256, ((Nat.repr x.val).data = ("127").data ↔ x.val = 127) := by
  decide

lemma repr256_eq_192 : ∀ x : Fin 256, ((Nat.repr x.val).data = ("192").data ↔ x.val = 192) := by
  decide

lemma repr256_eq_168 : ∀ x : Fin 256, ((Nat.repr x.val).data = ("168").data ↔ x.val = 168) := by
  decide

lemma repr256_eq_169 : ∀ x : Fin 256, ((Nat.repr x.val).data = ("169").data ↔ x.val = 169) := by
  decide

lemma repr256_eq_254 : ∀ x : Fin 256, ((Nat.repr x.val).data = ("254").data ↔ x.val = 254) := by
  decide

lemma repr256_eq_172 : ∀ x : Fin 256, ((Nat.repr x.val).data = ("172").data ↔ x.val = 172) := by
  decide

/-- An octet below 256 renders as one of the group alternatives 16..31 iff it
lies in 16..31. -/
lemma repr256_oct172 :
    ∀ x : Fin 256,
      ((∃ d, d ∈ oct172 ∧ (Nat.repr x.val).data = d.data) ↔ (16 ≤ x.val ∧ x.val ≤ 31)) := by
  decide

/-- Splitting an anchored match at a field separator: a dot-free group
followed by a dot matches at the start of a dot-free field followed by a dot
iff the group equals the field and the remaining pattern matches at the start
of the remaining text. -/
lemma prefixOf_field_split (p q : List Char) :
    ∀ xs ys : List Char, ('.') ∉ p → ('.') ∉ xs →
      ((p ++ ('.') :: q) <+: (xs ++ ('.') :: ys) ↔ (p = xs ∧ q <+: ys)) := by
  induction p with
  | nil =>
      intro xs ys _ hx
      cases xs with
      | nil => simp [List.cons_prefix_cons]
      | cons x xt =>
          have hxd : ('.') ≠ x := fun h => hx (h ▸ List.mem_cons_self _ _)
          simp [List.cons_prefix_cons, hxd]
  | cons c ct ih =>
      intro xs ys hp hx
      have hcd : c ≠ ('.') := fun h => hp (h ▸ List.mem_cons_self _ _)
      cases xs with
      | nil =>
          simp [List.cons_prefix_cons, hcd]
      | cons x xt =>
          have hp' : ('.') ∉ ct := fun h => hp (List.mem_cons_of_mem _ h)
          have hx' : ('.') ∉ xt := fun h => hx (List.mem_cons_of_mem _ h)
          simp [List.cons_prefix_cons, ih xt ys hp' hx', and_assoc]

/-- The rendered dotted quad, as a character list, is four decimal fields
separated by dots. -/
lemma renderIp_data (ip : Ip) :
    (renderIp ip).data
      = (Nat.repr ip.a).data
          ++ ('.') :: ((Nat.repr ip.b).data
          ++ ('.') :: ((Nat.repr ip.c).data
          ++ ('.') :: (Nat.repr ip.d).data)) := by
  simp [renderIp, String.data_append, dot_data, List.append_assoc]

/-- The `^10\.` alternative matches the rendering of a valid quad iff its
first octet is 10. -/
lemma strStarts_ten (ip : Ip) (ha : ip.a < 256) :
    strStarts ("10.") (renderIp ip) = true ↔ ip.a = 10 := by
  rw [strStarts, List.isPrefixOf_iff_prefix, renderIp_data]
  have hsplit : (("10.").data : List Char) = ("10").data ++ ('.') :: ([] : List Char) := rfl
  rw [hsplit, prefixOf_field_split _ _ _ _ (by decide) (dot_not_in_repr255 ⟨ip.a, ha⟩)]
  have h10 := repr256_eq_ten ⟨ip.a, ha⟩
  simp only [List.nil_prefix, and_true]
  exact eq_comm.trans h10

/-- The `^127\.` alternative matches the rendering of a valid quad iff its
first octet is 127. -/
lemma strStarts_127 (ip : Ip) (ha : ip.a < 256) :
    strStarts ("127.") (renderIp ip) = true ↔ ip.a = 127 := by
  rw [strStarts, List.isPrefixOf_iff_prefix, renderIp_data]
  have hsplit : (("127.").data : List Char) = ("127").data ++ ('.') :: ([] : List Char) := rfl
  rw [hsplit, prefixOf_field_split _ _ _ _ (by decide) (dot_not_in_repr255 ⟨ip.a, ha⟩)]
  have h127 := repr256_eq_127 ⟨ip.a, ha⟩
  simp only [List.nil_prefix, and_true]
  exact eq_comm.trans h127

/-- The `^192\.168\.` alternative matches the rendering of a valid quad iff
its first two octets are 192 and 168. -/
lemma strStarts_192168 (ip : Ip) (ha : ip.a < 256) (hb : ip.b < 256) :
    strStarts ("192.168.") (renderIp ip) = true ↔ (ip.a = 192 ∧ ip.b = 168) := by
  rw [strStarts, List.isPrefixOf_iff_prefix, renderIp_data]
  have hsplit : (("192.168.").data : List Char)
      = ("192").data ++ ('.') :: (("168").data ++ ('.') :: ([] : List Char)) := rfl
  rw [hsplit, prefixOf_field_split _ _ _ _ (by decide) (dot_not_in_repr255 ⟨ip.a, ha⟩),
      prefixOf_field_split _ _ _ _ (by decide) (dot_not_in_repr255 ⟨ip.b, hb⟩)]
  have hA := repr256_eq_192 ⟨ip.a, ha⟩
  have hB := repr256_eq_168 ⟨ip.b, hb⟩
  simp only [List.nil_prefix, and_true]
  exact and_congr (eq_comm.trans hA) (eq_comm.trans hB)

/-- The `^169\.254\.` alternative matches the rendering of a valid quad iff
its first two octets are 169 and 254. -/
lemma strStarts_169254 (ip : Ip) (ha : ip.a < 256) (hb : ip.b < 256) :
    strStarts ("169.254.") (renderIp ip) = true ↔ (ip.a = 169 ∧ ip.b = 254) := by
  rw [strStarts, List.isPrefixOf_iff_prefix, renderIp_data]
  have hsplit : (("169.254.").data : List Char)
      = ("169").data ++ ('.') :: (("254").data ++ ('.') :: ([] : List Char)) := rfl
  rw [hsplit, prefixOf_field_split _ _ _ _ (by decide) (dot_not_in_repr255 ⟨ip.a, ha⟩),
      prefixOf_field_split _ _ _ _ (by decide) (dot_not_in_repr255 ⟨ip.b, hb⟩)]
  have hA := repr256_eq_169 ⟨ip.a, ha⟩
  have hB := repr256_eq_254 ⟨ip.b, hb⟩
  simp only [List.nil_prefix, and_true]
  exact and_congr (eq_comm.trans hA) (eq_comm.trans hB)

/-- One alternative of the `^172\.(1[6-9]|2[0-9]|3[0-1])\.` group matches the
rendering of a valid quad iff its first octet is 172 and its second octet
renders as that alternative. -/
lemma strStarts_172d (d : String) (hd : d ∈ oct172) (ip : Ip)
    (ha : ip.a < 256) (hb : ip.b < 256) :
    strStarts (("172.") ++ d ++ (".")) (renderIp ip) = true
      ↔ (ip.a = 172 ∧ (Nat.repr ip.b).data = d.data) := by
  rw [strStarts, List.isPrefixOf_iff_prefix, renderIp_data]
  have hsplit : ((("172.") ++ d ++ (".")).data : List Char)
      = ("172").data ++ ('.') :: (d.data ++ ('.') :: ([] : List Char)) := by
    simp [String.data_append, dot_data]
  rw [hsplit, prefixOf_field_split _ _ _ _ (by decide) (dot_not_in_repr255 ⟨ip.a, ha⟩),
      prefixOf_field_split _ _ _ _ (dot_notin_oct172 d hd) (dot_not_in_repr255 ⟨ip.b, hb⟩)]
  have hA := repr256_eq_172 ⟨ip.a, ha⟩
  simp only [List.nil_prefix, and_true]
  exact and_congr (eq_comm.trans hA) eq_comm

/-- The whole `^172\.(1[6-9]|2[0-9]|3[0-1])\.` branch matches the rendering of
a valid quad iff its first octet is 172 and its second lies in 16..31. -/
lemma any172_iff (ip : Ip) (ha : ip.a < 256) (hb : ip.b < 256) :
    (oct172.any fun d => strStarts (("172.") ++ d ++ (".")) (renderIp ip)) = true
      ↔ (ip.a = 172 ∧ 16 ≤ ip.b ∧ ip.b ≤ 31) := by
  rw [List.any_eq_true]
  constructor
  · rintro ⟨d, hd, hm⟩
    obtain ⟨h172, hbd⟩ := (strStarts_172d d hd ip ha hb).mp hm
    exact ⟨h172, (repr256_oct172 ⟨ip.b, hb⟩).mp ⟨d, hd, hbd⟩⟩
  · rintro ⟨h172, hlo, hhi⟩
    obtain ⟨d, hd, hbd⟩ := (repr256_oct172 ⟨ip.b, hb⟩).mpr ⟨hlo, hhi⟩
    exact ⟨d, hd, (strStarts_172d d hd ip ha hb).mpr ⟨h172, hbd⟩⟩

/-- The PRIVATE regex, applied to the canonical rendering of a valid dotted
quad, recognizes exactly the five ranges 10.0.0.0/8, 172.16.0.0/12,
192.168.0.0/16, 127.0.0.0/8 and 169.254.0.0/16. -/
lemma PRIVATE_renderIp (ip : Ip) (h : ip.valid) :
    PRIVATE (renderIp ip) = true ↔ inClaimedRanges ip := by
  obtain ⟨ha, hb, _, _⟩ := h
  unfold PRIVATE inClaimedRanges
  simp only [Bool.or_eq_true]
  rw [strStarts_ten ip ha, any172_iff ip ha hb, strStarts_192168 ip ha hb,
      strStarts_127 ip ha, strStarts_169254 ip ha hb]
  tauto

/-- Claim C5: for every input URL whose scheme is not the secure transport
scheme https (including the unencrypted variant http), the call fails with
disallowed-scheme and its event trace is empty, so the failure happens before
any DNS lookup is performed and before any socket is opened; only https is
accepted. -/
theorem claim_C5 (raw : String) (env : Env) (url : ParsedUrl)
    (hu : env.parsed = some url) (hs : url.protocol ≠ ("https:")) :
    (safeFetch raw env).1 = Except.error ErrKind.disallowedScheme
      ∧ (safeFetch raw env).2 = [] := by
  constructor <;> simp [safeFetch, hu, hs]

/-- Concrete run of claim C5 on an http URL. -/
theorem claim_C5_witness :
    (safeFetch ("http://example.com/")
        (Env.mk (some (ParsedUrl.mk ("http:") ("example.com") none))
          (some [("93.184.216.34")]) (ConnectEvent.success 10 ("93.184.216.34")) true)).1
        = Except.error ErrKind.disallowedScheme
      ∧ (safeFetch ("http://example.com/")
          (Env.mk (some (ParsedUrl.mk ("http:") ("example.com") none))
            (some [("93.184.216.34")]) (ConnectEvent.success 10 ("93.184.216.34")) true)).2
          = [] :=
  claim_C5 ("http://example.com/")
    (Env.mk (some (ParsedUrl.mk ("http:") ("example.com") none))
      (some [("93.184.216.34")]) (ConnectEvent.success 10 ("93.184.216.34")) true)
    (ParsedUrl.mk ("http:") ("example.com") none) rfl (by decide)

/-- Claim C8: on a run that has passed the scheme gate, a failed DNS lookup
and an empty answer sequence both end the call with resolution-error; and when
the answer sequence is non-empty and free of private addresses, its first
element is the address the connect attempt targets, so the first element of
the sequence is only ever read on a non-empty sequence. -/
theorem claim_C8 (raw : String) (env : Env) (url : ParsedUrl)
    (hu : env.parsed = some url) (hs : url.protocol = ("https:")) :
    ((env.dnsAnswer = none ∨ env.dnsAnswer = some [])
        → (safeFetch raw env).1 = Except.error ErrKind.resolutionError)
      ∧ (∀ s0 srest, env.dnsAnswer = some (s0 :: srest)
          → ((s0 :: srest).any (fun ip => PRIVATE ip)) = false
          → Event.connectAttempt 443 s0 ∈ (safeFetch raw env).2) := by
  constructor
  · rintro (hd | hd) <;> simp [safeFetch, hu, hs, hd]
  · intro s0 srest hd hall
    rcases hcp : connectPhase env.connectEvent with ⟨res, hsEv⟩
    cases res with
    | error e => simp [safeFetch, hu, hs, hd, hall, hcp]
    | ok u => cases henv : env.fetchOk <;> simp [safeFetch, fetchPrim, hu, hs, hd, hall, hcp, henv]

/-- Concrete run of claim C8: an empty DNS answer yields resolution-error. -/
theorem claim_C8_witness :
    (safeFetch ("https://example.com/")
        (Env.mk (some (ParsedUrl.mk ("https:") ("example.com") none))
          (some ([] : List String)) ConnectEvent.never true)).1
      = Except.error ErrKind.resolutionError :=
  (claim_C8 ("https://example.com/")
      (Env.mk (some (ParsedUrl.mk ("https:") ("example.com") none))
        (some ([] : List String)) ConnectEvent.never true)
      (ParsedUrl.mk ("https:") ("example.com") none) rfl rfl).1 (Or.inr rfl)

/-- Claim C3: whenever the DNS answer sequence contains, at any position, an
address in 10.0.0.0/8, 172.16.0.0/12, 192.168.0.0/16, 127.0.0.0/8 or
169.254.0.0/16 — even when public addresses are also present — the call fails
with private-address-first-pass and no connect attempt appears in the trace. -/
theorem claim_C3 (raw : String) (env : Env) (url : ParsedUrl) (ips : List String) (ip : Ip)
    (hu : env.parsed = some url) (hs : url.protocol = ("https:"))
    (hd : env.dnsAnswer = some ips)
    (hv : ip.valid) (hr : inClaimedRanges ip) (hm : renderIp ip ∈ ips) :
    (safeFetch raw env).1 = Except.error ErrKind.privateFirstPass
      ∧ ∀ p a, Event.connectAttempt p a ∉ (safeFetch raw env).2 := by
  have hpriv : PRIVATE (renderIp ip) = true := (PRIVATE_renderIp ip hv).mpr hr
  cases ips with
  | nil => cases hm
  | cons s0 srest =>
      have hany : (s0 :: srest).any (fun ip => PRIVATE ip) = true :=
        List.any_eq_true.mpr ⟨renderIp ip, hm, hpriv⟩
      constructor
      · simp [safeFetch, hu, hs, hd, hany]
      · intro p a
        simp [safeFetch, hu, hs, hd, hany]

/-- Concrete run of claim C3: a metadata-service address in second position,
behind a public address that would be selected first, still rejects the
resolution. -/
theorem claim_C3_witness :
    (safeFetch ("https://example.com/")
        (Env.mk (some (ParsedUrl.mk ("https:") ("example.com") none))
          (some [("93.184.216.34"), ("169.254.169.254")])
          (ConnectEvent.success 10 ("93.184.216.34")) true)).1
      = Except.error ErrKind.privateFirstPass :=
  (claim_C3 ("https://example.com/")
      (Env.mk (some (ParsedUrl.mk ("https:") ("example.com") none))
        (some [("93.184.216.34"), ("169.254.169.254")])
        (ConnectEvent.success 10 ("93.184.216.34")) true)
      (ParsedUrl.mk ("https:") ("example.com") none)
      [("93.184.216.34"), ("169.254.169.254")]
      (Ip.mk 169 254 169 254) rfl rfl rfl (by decide) (by decide) (by decide)).1

/-- Claim C9 as stated is refuted at a concrete input: a run whose DNS answer
sequence consists of a single valid public address (93.184.216.34, outside all
five private ranges) still fails with private-address-post-handshake when the
transport reports a private peer address (127.0.0.1) after the handshake —
the rebinding situation in which claim C2 and the spec's rebinding simulation
demand exactly this failure. -/
theorem claim_C9_counterexample :
    (Ip.mk 93 184 216 34).valid
      ∧ ¬ inClaimedRanges (Ip.mk 93 184 216 34)
      ∧ renderIp (Ip.mk 93 184 216 34) = ("93.184.216.34")
      ∧ (safeFetch ("https://example.com/")
          (Env.mk (some (ParsedUrl.mk ("https:") ("example.com") none))
            (some [("93.184.216.34")]) (ConnectEvent.success 10 ("127.0.0.1")) true)).1
          = Except.error ErrKind.privatePostHandshake := by
  refine ⟨by decide, by decide, by decide, ?_⟩
  rfl

/-- Claim C9 amended: when every address in the DNS answer sequence is a
valid address outside the five private ranges, the call never fails with
private-address-first-pass — on any run, whatever the transport delivers;
and provided that the peer address observed after the handshake is also a
valid address outside those ranges (in particular, whenever the connection
indeed reaches the selected public address), the call never fails with
private-address-post-handshake either. -/
theorem claim_C9_amended (raw : String) (env : Env)
    (hpub : ∀ ips, env.dnsAnswer = some ips →
      ∀ s ∈ ips, ∃ ip : Ip, ip.valid ∧ ¬ inClaimedRanges ip ∧ s = renderIp ip) :
    (safeFetch raw env).1 ≠ Except.error ErrKind.privateFirstPass
      ∧ ((∀ t r, env.connectEvent = ConnectEvent.success t r →
            ∃ ip : Ip, ip.valid ∧ ¬ inClaimedRanges ip ∧ r = renderIp ip) →
          (safeFetch raw env).1 ≠ Except.error ErrKind.privatePostHandshake) := by
  obtain ⟨parsed, dns, cev, fok⟩ := env
  cases parsed with
  | none => exact ⟨by simp [safeFetch], fun _ => by simp [safeFetch]⟩
  | some url =>
      by_cases hsch : url.protocol = ("https:")
      · cases dns with
        | none => exact ⟨by simp [safeFetch, hsch], fun _ => by simp [safeFetch, hsch]⟩
        | some ips =>
            cases ips with
            | nil => exact ⟨by simp [safeFetch, hsch], fun _ => by simp [safeFetch, hsch]⟩
            | cons s0 srest =>
                have hanyF : (s0 :: srest).any (fun ip => PRIVATE ip) = false := by
                  rw [← Bool.not_eq_true, List.any_eq_true]
                  rintro ⟨s, hsmem, hpriv⟩
                  obtain ⟨ip, hv, hnr, hse⟩ := hpub (s0 :: srest) rfl s hsmem
                  rw [hse] at hpriv
                  exact hnr ((PRIVATE_renderIp ip hv).mp hpriv)
                constructor
                · cases cev with
                  | success t r =>
                      by_cases ht : t < timeoutMs
                      · by_cases hr : PRIVATE r = true
                        · simp [safeFetch, connectPhase, hsch, hanyF, ht, hr]
                        · have hrF : PRIVATE r = false := by
                            cases hPR : PRIVATE r
                            · rfl
                            · exact absurd hPR hr
                          cases fok <;>
                            simp [safeFetch, connectPhase, fetchPrim, hsch, hanyF, ht, hrF]
                      · simp [safeFetch, connectPhase, hsch, hanyF, ht]
                  | failure t =>
                      by_cases ht : t < timeoutMs <;>
                        simp [safeFetch, connectPhase, hsch, hanyF, ht]
                  | never => simp [safeFetch, connectPhase, hsch, hanyF]
                · intro hrem
                  cases cev with
                  | success t r =>
                      obtain ⟨ip, hv, hnr, hre⟩ := hrem t r rfl
                      have hprivF : PRIVATE r = false := by
                        rw [hre, ← Bool.not_eq_true]
                        intro htrue
                        exact hnr ((PRIVATE_renderIp ip hv).mp htrue)
                      by_cases ht : t < timeoutMs
                      · cases fok <;>
                          simp [safeFetch, connectPhase, fetchPrim, hsch, hanyF, ht, hprivF]
                      · simp [safeFetch, connectPhase, hsch, hanyF, ht]
                  | failure t =>
                      by_cases ht : t < timeoutMs <;>
                        simp [safeFetch, connectPhase, hsch, hanyF, ht]
                  | never => simp [safeFetch, connectPhase, hsch, hanyF]
      · exact ⟨by simp [safeFetch, hsch], fun _ => by simp [safeFetch, hsch]⟩

/-- Concrete run of the amended claim C9: public-only answers and a public
observed peer address reach neither private-address failure. -/
theorem claim_C9_amended_witness :
    (safeFetch ("https://example.com/")
        (Env.mk (some (ParsedUrl.mk ("https:") ("example.com") none))
          (some [("93.184.216.34")]) (ConnectEvent.success 10 ("93.184.216.34")) true)).1
        ≠ Except.error ErrKind.privateFirstPass
      ∧ (safeFetch ("https://example.com/")
          (Env.mk (some (ParsedUrl.mk ("https:") ("example.com") none))
            (some [("93.184.216.34")]) (ConnectEvent.success 10 ("93.184.216.34")) true)).1
          ≠ Except.error ErrKind.privatePostHandshake :=
  ⟨(claim_C9_amended ("https://example.com/")
      (Env.mk (some (ParsedUrl.mk ("https:") ("example.com") none))
        (some [("93.184.216.34")]) (ConnectEvent.success 10 ("93.184.216.34")) true)
      (by
        intro ips h s hsmem
        injection h with h2
        subst h2
        refine ⟨Ip.mk 93 184 216 34, by decide, by decide, ?_⟩
        have hse : s = ("93.184.216.34") := by simpa using hsmem
        rw [hse]; decide)).1,
   (claim_C9_amended ("https://example.com/")
      (Env.mk (some (ParsedUrl.mk ("https:") ("example.com") none))
        (some [("93.184.216.34")]) (ConnectEvent.success 10 ("93.184.216.34")) true)
      (by
        intro ips h s hsmem
        injection h with h2
        subst h2
        refine ⟨Ip.mk 93 184 216 34, by decide, by decide, ?_⟩
        have hse : s = ("93.184.216.34") := by simpa using hsmem
        rw [hse]; decide)).2
    (by
      intro t r h
      injection h with h1 h2
      subst h2
      exact ⟨Ip.mk 93 184 216 34, by decide, by decide, by decide⟩)⟩

/-- Claim C2: after a successful handshake the guard classifies the peer
address the transport actually reports — not the address it dialed — and when
that observed address is private the socket is destroyed, the call fails with
private-address-post-handshake, and no fetch is issued; in particular this is
the outcome of every run whose resolution returned only public addresses
while the connection actually reached a private address. -/
theorem claim_C2 (raw : String) (env : Env) (url : ParsedUrl)
    (s0 : String) (srest : List String) (t : Nat) (r : String)
    (hu : env.parsed = some url) (hs : url.protocol = ("https:"))
    (hd : env.dnsAnswer = some (s0 :: srest))
    (hpub : ∀ s ∈ s0 :: srest, PRIVATE s = false)
    (hev : env.connectEvent = ConnectEvent.success t r) (ht : t < timeoutMs)
    (hr : PRIVATE r = true) :
    (safeFetch raw env).1 = Except.error ErrKind.privatePostHandshake
      ∧ Event.socketDestroy ∈ (safeFetch raw env).2
      ∧ ∀ u pin, Event.fetchCall u pin ∉ (safeFetch raw env).2 := by
  have hanyF : (s0 :: srest).any (fun ip => PRIVATE ip) = false := by
    rw [← Bool.not_eq_true, List.any_eq_true]
    rintro ⟨s, hsmem, hpriv⟩
    rw [hpub s hsmem] at hpriv
    cases hpriv
  refine ⟨?_, ?_, fun u pin => ?_⟩ <;>
    simp [safeFetch, connectPhase, hu, hs, hd, hanyF, hev, ht, hr]

/-- Concrete rebinding run of claim C2: resolution returns one public
address, the transport reports the loopback address after the handshake, and
the call fails with private-address-post-handshake. -/
theorem claim_C2_witness :
    (safeFetch ("https://example.com/")
        (Env.mk (some (ParsedUrl.mk ("https:") ("example.com") none))
          (some [("93.184.216.34")]) (ConnectEvent.success 100 ("127.0.0.1")) true)).1
      = Except.error ErrKind.privatePostHandshake :=
  (claim_C2 ("https://example.com/")
      (Env.mk (some (ParsedUrl.mk ("https:") ("example.com") none))
        (some [("93.184.216.34")]) (ConnectEvent.success 100 ("127.0.0.1")) true)
      (ParsedUrl.mk ("https:") ("example.com") none)
      ("93.184.216.34") [] 100 ("127.0.0.1")
      rfl rfl rfl (by decide) rfl (by decide) (by decide)).1

/-- Claim C6: on a run that reaches the connect phase, if neither the connect
callback nor the error event fires within the 3000 ms budget, the attempt is
aborted by the timer, the socket is destroyed, and the call fails with
handshake-timeout. -/
theorem claim_C6 (raw : String) (env : Env) (url : ParsedUrl)
    (s0 : String) (srest : List String)
    (hu : env.parsed = some url) (hs : url.protocol = ("https:"))
    (hd : env.dnsAnswer = some (s0 :: srest))
    (hall : (s0 :: srest).any (fun ip => PRIVATE ip) = false)
    (hnc : ∀ t r, env.connectEvent = ConnectEvent.success t r → timeoutMs ≤ t)
    (hne : ∀ t, env.connectEvent = ConnectEvent.failure t → timeoutMs ≤ t) :
    (safeFetch raw env).1 = Except.error ErrKind.handshakeTimeout
      ∧ Event.socketDestroy ∈ (safeFetch raw env).2 := by
  cases hcev : env.connectEvent with
  | success t r =>
      have ht : ¬ t < timeoutMs := not_lt.mpr (hnc t r hcev)
      constructor <;> simp [safeFetch, connectPhase, hu, hs, hd, hall, hcev, ht]
  | failure t =>
      have ht : ¬ t < timeoutMs := not_lt.mpr (hne t hcev)
      constructor <;> simp [safeFetch, connectPhase, hu, hs, hd, hall, hcev, ht]
  | never =>
      constructor <;> simp [safeFetch, connectPhase, hu, hs, hd, hall, hcev]

/-- Concrete run of claim C6: no socket event ever fires, the timer expires,
the socket is destroyed and the call fails with handshake-timeout. -/
theorem claim_C6_witness :
    (safeFetch ("https://example.com/")
        (Env.mk (some (ParsedUrl.mk ("https:") ("example.com") none))
          (some [("93.184.216.34")]) ConnectEvent.never true)).1
      = Except.error ErrKind.handshakeTimeout :=
  (claim_C6 ("https://example.com/")
      (Env.mk (some (ParsedUrl.mk ("https:") ("example.com") none))
        (some [("93.184.216.34")]) ConnectEvent.never true)
      (ParsedUrl.mk ("https:") ("example.com") none)
      ("93.184.216.34") [] rfl rfl rfl (by decide)
      (fun t r h => by cases h) (fun t h => by cases h)).1

/-- Claim C7: every failure of safeFetch is one of the eight kinds of the
taxonomy — never an unclassified fault; in particular a run whose URL parsing
fails yields invalid-url, and a transport-level connect failure inside the
time budget yields handshake-error. -/
theorem claim_C7 (raw : String) (env : Env) :
    (∀ e, (safeFetch raw env).1 = Except.error e →
        e = ErrKind.invalidUrl ∨ e = ErrKind.disallowedScheme ∨ e = ErrKind.resolutionError
          ∨ e = ErrKind.privateFirstPass ∨ e = ErrKind.handshakeTimeout
          ∨ e = ErrKind.handshakeError ∨ e = ErrKind.privatePostHandshake
          ∨ e = ErrKind.fetchError)
      ∧ (env.parsed = none → (safeFetch raw env).1 = Except.error ErrKind.invalidUrl)
      ∧ (∀ url s0 srest t, env.parsed = some url → url.protocol = ("https:")
          → env.dnsAnswer = some (s0 :: srest)
          → (s0 :: srest).any (fun ip => PRIVATE ip) = false
          → env.connectEvent = ConnectEvent.failure t → t < timeoutMs
          → (safeFetch raw env).1 = Except.error ErrKind.handshakeError) := by
  refine ⟨?_, ?_, ?_⟩
  · intro e _
    cases e <;> simp
  · intro hp
    simp [safeFetch, hp]
  · intro url s0 srest t hu hs hd hall hcev ht
    simp [safeFetch, connectPhase, hu, hs, hd, hall, hcev, ht]

/-- Concrete runs of claim C7: a parse failure yields invalid-url, and a
refused connect inside the budget yields handshake-error. -/
theorem claim_C7_witness :
    (safeFetch ("not a url") (Env.mk none none ConnectEvent.never true)).1
        = Except.error ErrKind.invalidUrl
      ∧ (safeFetch ("https://example.com/")
          (Env.mk (some (ParsedUrl.mk ("https:") ("example.com") none))
            (some [("93.184.216.34")]) (ConnectEvent.failure 50 ) true)).1
          = Except.error ErrKind.handshakeError :=
  ⟨(claim_C7 ("not a url") (Env.mk none none ConnectEvent.never true)).2.1 rfl,
   (claim_C7 ("https://example.com/")
       (Env.mk (some (ParsedUrl.mk ("https:") ("example.com") none))
         (some [("93.184.216.34")]) (ConnectEvent.failure 50 ) true)).2.2
     (ParsedUrl.mk ("https:") ("example.com") none)
     ("93.184.216.34") [] 50 rfl rfl rfl (by decide) rfl (by decide)⟩

/-- The condition under which the handshake phase resolves: the connect
callback fired within the 3000 ms budget and the observed peer address is not
matched by PRIVATE. -/
def goodConnect (env : Env) : Prop :=
  ∃ t r, env.connectEvent = ConnectEvent.success t r ∧ t < timeoutMs ∧ PRIVATE r = false

/-- Characterization of a run that reaches the connect phase: either the
handshake phase rejects — the connect was not good — and the run ends with
that error after destroying the socket, or the connect was good and the run
ends with the fetch outcome after the full trace. -/
lemma safeFetch_connect_split (raw : String) (env : Env) (url : ParsedUrl)
    (s0 : String) (srest : List String)
    (hu : env.parsed = some url) (hs : url.protocol = ("https:"))
    (hd : env.dnsAnswer = some (s0 :: srest))
    (hall : (s0 :: srest).any (fun ip => PRIVATE ip) = false) :
    ((¬ goodConnect env) ∧ ∃ e, safeFetch raw env
        = (Except.error e,
           [Event.dnsLookup url.hostname, Event.connectAttempt 443 s0, Event.socketDestroy]))
      ∨ (goodConnect env ∧ safeFetch raw env
          = ((if env.fetchOk then Except.ok (Response.mk raw)
              else Except.error ErrKind.fetchError),
             [Event.dnsLookup url.hostname, Event.connectAttempt 443 s0, Event.socketEnd,
              Event.fetchCall raw none, Event.dnsLookup url.hostname])) := by
  cases hcev : env.connectEvent with
  | success t r =>
      by_cases ht : t < timeoutMs
      · by_cases hr : PRIVATE r = true
        · left
          constructor
          · rintro ⟨t2, r2, he2, ht2, hr2⟩
            rw [hcev] at he2
            injection he2 with h1 h2
            subst h1
            subst h2
            rw [hr] at hr2
            cases hr2
          · exact ⟨ErrKind.privatePostHandshake, by
              simp [safeFetch, connectPhase, hu, hs, hd, hall, hcev, ht, hr]⟩
        · right
          have hrF : PRIVATE r = false := by
            cases hPR : PRIVATE r
            · rfl
            · exact absurd hPR hr
          refine ⟨⟨t, r, hcev, ht, hrF⟩, ?_⟩
          cases hfok : env.fetchOk <;>
            simp [safeFetch, connectPhase, fetchPrim, hu, hs, hd, hall, hcev, ht, hrF, hfok]
      · left
        constructor
        · rintro ⟨t2, r2, he2, ht2, hr2⟩
          rw [hcev] at he2
          injection he2 with h1 h2
          subst h1
          exact ht ht2
        · exact ⟨ErrKind.handshakeTimeout, by
            simp [safeFetch, connectPhase, hu, hs, hd, hall, hcev, ht]⟩
  | failure t =>
      by_cases ht : t < timeoutMs
      · left
        refine ⟨?_, ErrKind.handshakeError, by
          simp [safeFetch, connectPhase, hu, hs, hd, hall, hcev, ht]⟩
        rintro ⟨t2, r2, he2, ht2, hr2⟩
        rw [hcev] at he2
        cases he2
      · left
        refine ⟨?_, ErrKind.handshakeTimeout, by
          simp [safeFetch, connectPhase, hu, hs, hd, hall, hcev, ht]⟩
        rintro ⟨t2, r2, he2, ht2, hr2⟩
        rw [hcev] at he2
        cases he2
  | never =>
      left
      refine ⟨?_, ErrKind.handshakeTimeout, by
        simp [safeFetch, connectPhase, hu, hs, hd, hall, hcev]⟩
      rintro ⟨t2, r2, he2, ht2, hr2⟩
      rw [hcev] at he2
      cases he2

/-- A run that does not reach the connect phase ends with an error, and its
trace holds nothing but DNS lookups. -/
lemma safeFetch_early (raw : String) (env : Env)
    (h : ¬ ∃ url s0 srest, env.parsed = some url ∧ url.protocol = ("https:")
        ∧ env.dnsAnswer = some (s0 :: srest)
        ∧ (s0 :: srest).any (fun ip => PRIVATE ip) = false) :
    ∃ e, (safeFetch raw env).1 = Except.error e
      ∧ ∀ ev ∈ (safeFetch raw env).2, ∃ h2, ev = Event.dnsLookup h2 := by
  obtain ⟨parsed, dns, cev, fok⟩ := env
  cases parsed with
  | none => exact ⟨ErrKind.invalidUrl, by simp [safeFetch], by simp [safeFetch]⟩
  | some url =>
      by_cases hsch : url.protocol = ("https:")
      · cases dns with
        | none =>
            refine ⟨ErrKind.resolutionError, by simp [safeFetch, hsch], ?_⟩
            intro ev hev
            simp [safeFetch, hsch] at hev
            exact ⟨url.hostname, hev⟩
        | some ips =>
            cases ips with
            | nil =>
                refine ⟨ErrKind.resolutionError, by simp [safeFetch, hsch], ?_⟩
                intro ev hev
                simp [safeFetch, hsch] at hev
                exact ⟨url.hostname, hev⟩
            | cons s0 srest =>
                cases hany : (s0 :: srest).any (fun ip => PRIVATE ip) with
                | false => exact absurd ⟨url, s0, srest, rfl, hsch, rfl, hany⟩ h
                | true =>
                    refine ⟨ErrKind.privateFirstPass, by simp [safeFetch, hsch, hany], ?_⟩
                    intro ev hev
                    simp [safeFetch, hsch, hany] at hev
                    exact ⟨url.hostname, hev⟩
      · exact ⟨ErrKind.disallowedScheme, by simp [safeFetch, hsch], by simp [safeFetch, hsch]⟩

/-- Claim C1: a fetch call appears in the trace of a run only if the connect
callback fired within the 3000 ms budget and the peer address observed after
the handshake is not private; and whenever that condition fails, the call
terminates with an error, with no fetch call in its trace. -/
theorem claim_C1 (raw : String) (env : Env) :
    ((∃ u pin, Event.fetchCall u pin ∈ (safeFetch raw env).2)
        → ∃ t r, env.connectEvent = ConnectEvent.success t r ∧ t < timeoutMs
            ∧ PRIVATE r = false)
      ∧ ((¬ ∃ t r, env.connectEvent = ConnectEvent.success t r ∧ t < timeoutMs
            ∧ PRIVATE r = false)
          → (∃ e, (safeFetch raw env).1 = Except.error e)
            ∧ ∀ u pin, Event.fetchCall u pin ∉ (safeFetch raw env).2) := by
  constructor
  · rintro ⟨u, pin, hmem⟩
    by_cases hreach : ∃ url s0 srest, env.parsed = some url ∧ url.protocol = ("https:")
        ∧ env.dnsAnswer = some (s0 :: srest)
        ∧ (s0 :: srest).any (fun ip => PRIVATE ip) = false
    · obtain ⟨url, s0, srest, hu, hs, hd, hall⟩ := hreach
      rcases safeFetch_connect_split raw env url s0 srest hu hs hd hall with
        ⟨hng, e, heq⟩ | ⟨hg, heq⟩
      · rw [heq] at hmem
        simp at hmem
      · exact hg
    · obtain ⟨e, herr, htr⟩ := safeFetch_early raw env hreach
      obtain ⟨h2, hev⟩ := htr _ hmem
      cases hev
  · intro hng
    by_cases hreach : ∃ url s0 srest, env.parsed = some url ∧ url.protocol = ("https:")
        ∧ env.dnsAnswer = some (s0 :: srest)
        ∧ (s0 :: srest).any (fun ip => PRIVATE ip) = false
    · obtain ⟨url, s0, srest, hu, hs, hd, hall⟩ := hreach
      rcases safeFetch_connect_split raw env url s0 srest hu hs hd hall with
        ⟨hng2, e, heq⟩ | ⟨hg, heq⟩
      · refine ⟨⟨e, by rw [heq]⟩, ?_⟩
        intro u pin hmem
        rw [heq] at hmem
        simp at hmem
      · exact absurd hg hng
    · obtain ⟨e, herr, htr⟩ := safeFetch_early raw env hreach
      refine ⟨⟨e, herr⟩, ?_⟩
      intro u pin hmem
      obtain ⟨h2, hev⟩ := htr _ hmem
      cases hev

/-- Concrete run of claim C1: the trace of a successful run contains a fetch
call, so the connect was within budget to a public peer. -/
theorem claim_C1_witness :
    ∃ t r, (Env.mk (some (ParsedUrl.mk ("https:") ("example.com") none))
        (some [("93.184.216.34")]) (ConnectEvent.success 10 ("93.184.216.34")) true).connectEvent
          = ConnectEvent.success t r ∧ t < timeoutMs ∧ PRIVATE r = false :=
  (claim_C1 ("https://example.com/")
      (Env.mk (some (ParsedUrl.mk ("https:") ("example.com") none))
        (some [("93.184.216.34")]) (ConnectEvent.success 10 ("93.184.216.34")) true)).1
    ⟨("https://example.com/"), none, by decide⟩

/-- Claim C4: a successful run issues the final retrieval with the original
raw URL string — not the verified address — and pins no address for it, so
the platform fetch performs its own, second DNS resolution: every fetch call
in the trace carries exactly the raw string with no pinned address, and the
trace holds two DNS lookups. -/
theorem claim_C4 (raw : String) (env : Env) (r : Response)
    (hok : (safeFetch raw env).1 = Except.ok r) :
    r = Response.mk raw
      ∧ Event.fetchCall raw none ∈ (safeFetch raw env).2
      ∧ (∀ u pin, Event.fetchCall u pin ∈ (safeFetch raw env).2 → u = raw ∧ pin = none)
      ∧ List.countP isDnsLookup (safeFetch raw env).2 = 2 := by
  by_cases hreach : ∃ url s0 srest, env.parsed = some url ∧ url.protocol = ("https:")
      ∧ env.dnsAnswer = some (s0 :: srest)
      ∧ (s0 :: srest).any (fun ip => PRIVATE ip) = false
  · obtain ⟨url, s0, srest, hu, hs, hd, hall⟩ := hreach
    rcases safeFetch_connect_split raw env url s0 srest hu hs hd hall with
      ⟨hng, e, heq⟩ | ⟨hg, heq⟩
    · rw [heq] at hok
      simp at hok
    · cases hfok : env.fetchOk with
      | false =>
          rw [heq, hfok] at hok
          simp at hok
      | true =>
          rw [heq, hfok] at hok
          simp at hok
          refine ⟨hok.symm, ?_, ?_, ?_⟩
          · rw [heq]
            simp
          · intro u pin hmem
            rw [heq] at hmem
            simp at hmem
            exact hmem
          · rw [heq]
            simp [isDnsLookup, List.countP_cons, List.countP_nil]
  · obtain ⟨e, herr, htr⟩ := safeFetch_early raw env hreach
    rw [hok] at herr
    cases herr

/-- Concrete run of claim C4: a successful run whose trace contains the fetch
call for the raw URL and two DNS lookups. -/
theorem claim_C4_witness :
    Event.fetchCall ("https://example.com/") none
        ∈ (safeFetch ("https://example.com/")
            (Env.mk (some (ParsedUrl.mk ("https:") ("example.com") none))
              (some [("93.184.216.34")])
              (ConnectEvent.success 10 ("93.184.216.34")) true)).2
      ∧ List.countP isDnsLookup
          (safeFetch ("https://example.com/")
            (Env.mk (some (ParsedUrl.mk ("https:") ("example.com") none))
              (some [("93.184.216.34")])
              (ConnectEvent.success 10 ("93.184.216.34")) true)).2 = 2 :=
  ⟨(claim_C4 ("https://example.com/")
      (Env.mk (some (ParsedUrl.mk ("https:") ("example.com") none))
        (some [("93.184.216.34")]) (ConnectEvent.success 10 ("93.184.216.34")) true)
      (Response.mk ("https://example.com/")) rfl).2.1,
   (claim_C4 ("https://example.com/")
      (Env.mk (some (ParsedUrl.mk ("https:") ("example.com") none))
        (some [("93.184.216.34")]) (ConnectEvent.success 10 ("93.184.216.34")) true)
      (Response.mk ("https://example.com/")) rfl).2.2.2⟩

/-- Claim C10: on every run that reaches the connect phase the handshake
targets fixed port 443 — regardless of any explicit port in the URL — while
the final fetch is issued for the original URL string, whose effective port
is the URL's explicit port; hence for an explicit port other than 443 the
port the handshake verified differs from the port the content is retrieved
from. -/
theorem claim_C10 (raw : String) (env : Env) (url : ParsedUrl)
    (s0 : String) (srest : List String)
    (hu : env.parsed = some url) (hs : url.protocol = ("https:"))
    (hd : env.dnsAnswer = some (s0 :: srest))
    (hall : (s0 :: srest).any (fun ip => PRIVATE ip) = false) :
    Event.connectAttempt 443 s0 ∈ (safeFetch raw env).2
      ∧ (∀ p a, Event.connectAttempt p a ∈ (safeFetch raw env).2 → p = 443)
      ∧ (∀ u pin, Event.fetchCall u pin ∈ (safeFetch raw env).2 → u = raw)
      ∧ (∀ p, url.port = some p → p ≠ 443 → fetchEffectivePort url ≠ 443) := by
  have hport : ∀ p, url.port = some p → p ≠ 443 → fetchEffectivePort url ≠ 443 := by
    intro p hp hne
    simpa [fetchEffectivePort, hp] using hne
  rcases safeFetch_connect_split raw env url s0 srest hu hs hd hall with
    ⟨hng, e, heq⟩ | ⟨hg, heq⟩
  · refine ⟨?_, ?_, ?_, hport⟩
    · rw [heq]
      simp
    · intro p a hmem
      rw [heq] at hmem
      simp at hmem
      exact hmem.1
    · intro u pin hmem
      rw [heq] at hmem
      simp at hmem
  · refine ⟨?_, ?_, ?_, hport⟩
    · rw [heq]
      simp
    · intro p a hmem
      rw [heq] at hmem
      simp at hmem
      exact hmem.1
    · intro u pin hmem
      rw [heq] at hmem
      simp at hmem
      exact hmem.1

/-- Concrete run of claim C10: a URL with explicit port 8443 is verified on
port 443 while its fetch targets port 8443. -/
theorem claim_C10_witness :
    Event.connectAttempt 443 ("93.184.216.34")
        ∈ (safeFetch ("https://example.com:8443/")
            (Env.mk (some (ParsedUrl.mk ("https:") ("example.com") (some 8443)))
              (some [("93.184.216.34")])
              (ConnectEvent.success 10 ("93.184.216.34")) true)).2
      ∧ fetchEffectivePort (ParsedUrl.mk ("https:") ("example.com") (some 8443)) ≠ 443 :=
  ⟨(claim_C10 ("https://example.com:8443/")
      (Env.mk (some (ParsedUrl.mk ("https:") ("example.com") (some 8443)))
        (some [("93.184.216.34")]) (ConnectEvent.success 10 ("93.184.216.34")) true)
      (ParsedUrl.mk ("https:") ("example.com") (some 8443))
      ("93.184.216.34") [] rfl rfl rfl (by decide)).1,
   (claim_C10 ("https://example.com:8443/")
      (Env.mk (some (ParsedUrl.mk ("https:") ("example.com") (some 8443)))
        (some [("93.184.216.34")]) (ConnectEvent.success 10 ("93.184.216.34")) true)
      (ParsedUrl.mk ("https:") ("example.com") (some 8443))
      ("93.184.216.34") [] rfl rfl rfl (by decide)).2.2.2 8443 rfl (by decide)⟩
